import Mathlib

/-!
# Verification of the SawMill OPC UA simulation engine (`src/server.py`)

This development shallowly embeds the simulation state machine of
`SawMillServer.update_simulation` together with its scheduler loop.

Modelling choices:

* The OPC UA variable nodes (`self.sawmill_vars`) form the telemetry sink;
  since the engine is the single writer within a tick and each `read_value` /
  `write_value` acts on an in-memory node, the sink is modelled as a record
  `SawMillState` holding one field per registered point.
* Python `float` values are modelled as rationals (`ℚ`): no claim depends on
  floating-point rounding, only on exact arithmetic, comparisons and clamping.
* Calls to `random.uniform` and `random.random` are modelled by an explicit
  oracle record `Oracle` supplying one draw per call site of a tick, plus the
  wall-clock second `datetime.now().second` used by the cadence gate.
* A second, fault-instrumented semantics (`tickBodyE` / `tickCaught`) models
  the same tick with sink read/write operations that may raise, mirroring the
  `try`/`except` wrapper at lines 120–196 of `server.py`; it is used for the
  failure-semantics claim.
-/

/-- The points registered in `SawMillServer.init` (lines 59–92 of
`server.py`): three state flags, three parameters, a counter, two alarm
flags and four sensor nodes. -/
inductive PointName where
  | is_active | is_working | is_stopped
  | cutting_speed | motor_speed | power_consumption
  | pieces_count
  | has_alarm | has_error
  | temperature | vibration | pressure | speed
  deriving DecidableEq, Repr

/-- Current values of all registered points: the in-memory content of the
OPC UA variable nodes that `update_simulation` reads and writes. -/
structure SawMillState where
  is_active : Bool
  is_working : Bool
  is_stopped : Bool
  cutting_speed : ℚ
  motor_speed : ℚ
  power_consumption : ℚ
  pieces_count : ℤ
  has_alarm : Bool
  has_error : Bool
  temperature : ℚ
  vibration : ℚ
  pressure : ℚ
  speed : ℚ
  deriving DecidableEq, Repr

/-- Initial values written at startup (`SawMillServer.init`, using
`target_values`): machine off, counters zero, alarms clear, sensors at their
targets. -/
def initialState : SawMillState :=
  { is_active := false
    is_working := false
    is_stopped := true
    cutting_speed := 20
    motor_speed := 1800
    power_consumption := 75
    pieces_count := 0
    has_alarm := false
    has_error := false
    temperature := 45
    vibration := 4
    pressure := 175
    speed := 1800 }

/-- One tick's worth of environment inputs: the wall-clock second sampled by
`datetime.now()`, the six `random.uniform` draws in the order the tick makes
them, and the two `random.random()` comparisons (`< 0.2` for the piece
counter, `< 0.01` for the random error), recorded as the booleans they
decide. -/
structure Oracle where
  second : ℕ
  dSpeed : ℚ
  dMotor : ℚ
  dPower : ℚ
  dTemp : ℚ
  dVib : ℚ
  dPressure : ℚ
  pieceEvent : Bool
  errorEvent : Bool
  deriving DecidableEq, Repr

/-- `target_values` of `SawMillServer.__init__` (lines 17–25). -/
def targetCuttingSpeed : ℚ := 20
def targetMotorSpeed : ℚ := 1800
def targetPowerConsumption : ℚ := 75

/-- `max lo (min hi x)`: the Python idiom `max(lo, min(hi, x))` used for
every range limit in the tick. -/
def clamp (lo hi x : ℚ) : ℚ := max lo (min hi x)

/-- Line 138–139: `new_speed = target + uniform(-2, 2)` clamped to
`[15, 25]`. Note the baseline is the fixed target, not the previous value
(the read at line 137 is dead). -/
def newSpeed (o : Oracle) : ℚ := clamp 15 25 (targetCuttingSpeed + o.dSpeed)

/-- Line 143: `motor_speed = target + uniform(-90, 90)`, written unclamped
to both `motor_speed` and `speed`. -/
def newMotorSpeed (o : Oracle) : ℚ := targetMotorSpeed + o.dMotor

/-- Lines 148–150 before the clamp: `power_base + (new_speed - 20) * 2`
plus the small `uniform(-1, 1)` variation. -/
def powerBeforeClamp (ns r : ℚ) : ℚ := targetPowerConsumption + (ns - 20) * 2 + r

/-- Line 151: the derived power clamped to `[60, 90]`. -/
def newPower (o : Oracle) : ℚ := clamp 60 90 (powerBeforeClamp (newSpeed o) o.dPower)

/-- Lines 155–157: `temperature + uniform(-0.2, 0.3)` clamped to `[40, 60]`. -/
def newTemp (s : SawMillState) (o : Oracle) : ℚ := clamp 40 60 (s.temperature + o.dTemp)

/-- Lines 161–163: `vibration + uniform(-0.3, 0.3)` clamped to `[2, 10]`. -/
def newVib (s : SawMillState) (o : Oracle) : ℚ := clamp 2 10 (s.vibration + o.dVib)

/-- Lines 167–169: `pressure + uniform(-2, 2)` clamped to `[150, 200]`. -/
def newPressure (s : SawMillState) (o : Oracle) : ℚ := clamp 150 200 (s.pressure + o.dPressure)

/-- Lines 126–133: the cadence gate. When `second % 10 == 0` the machine
flags read at the start of the tick are negated and `is_stopped` is set to
the negation of the new `is_active`. -/
def toggleStep (s : SawMillState) (second : ℕ) : SawMillState :=
  if second % 10 = 0 then
    { s with is_active := !s.is_active
             is_working := !s.is_working
             is_stopped := !(!s.is_active) }
  else s

/-- Lines 136–170: the sensor update block run when the machine was active
at the start of the tick. -/
def sensorStep (s : SawMillState) (o : Oracle) : SawMillState :=
  { s with cutting_speed := newSpeed o
           motor_speed := newMotorSpeed o
           speed := newMotorSpeed o
           power_consumption := newPower o
           temperature := newTemp s o
           vibration := newVib s o
           pressure := newPressure s o }

/-- Lines 173–176: with probability 0.2 (the `pieceEvent` draw) the counter
is read and written back incremented. -/
def pieceStep (s : SawMillState) (ev : Bool) : SawMillState :=
  if ev then { s with pieces_count := s.pieces_count + 1 } else s

/-- Lines 179–193: the alarm cascade, first match wins, evaluated on the
values computed earlier in the tick. -/
def alarmStep (s : SawMillState) (errorEvent : Bool) (power temp vib : ℚ) : SawMillState :=
  if power > 85 then { s with has_alarm := true }
  else if temp > 55 then { s with has_alarm := true }
  else if vib > 8 then { s with has_alarm := true }
  else if errorEvent then { s with has_error := true }
  else { s with has_alarm := false, has_error := false }

/-- `SawMillServer.update_simulation` (lines 118–196) under fault-free sink
operation.  `is_active` and `is_working` are the values read at lines
122–123, *before* the cadence gate writes, and every later branch tests
those snapshots. -/
def update_simulation (s : SawMillState) (o : Oracle) : SawMillState :=
  let is_active := s.is_active
  let is_working := s.is_working
  let s1 := toggleStep s o.second
  if is_active then
    let s2 := sensorStep s1 o
    if is_working then
      alarmStep (pieceStep s2 o.pieceEvent) o.errorEvent
        (newPower o) (newTemp s1 o) (newVib s1 o)
    else s2
  else s1

/-- The scheduler loop of `SawMillServer.start` (lines 108–111): starting
from `s`, run `n` ticks, tick `k` drawing its environment from `str k`. -/
def runTicks (s : SawMillState) (str : ℕ → Oracle) : ℕ → SawMillState
  | 0 => s
  | n + 1 => update_simulation (runTicks s str n) (str n)

/-- Fault injection for the telemetry sink: which `read_value` /
`write_value` calls raise during a tick. -/
structure Faults where
  failRead : PointName → Bool
  failWrite : PointName → Bool

/-- No sink operation fails: normal operation. -/
def noFaults : Faults := { failRead := fun _ => false, failWrite := fun _ => false }

/-- A sink read: raises (carrying the state reached so far, since already
landed writes persist on the sink) when the fault model says so, otherwise
leaves the sink unchanged. -/
def readP (f : Faults) (p : PointName) (s : SawMillState) :
    Except SawMillState SawMillState :=
  if f.failRead p then Except.error s else Except.ok s

/-- A sink write: raises (carrying the state reached so far) when the fault
model says so, otherwise applies the single-point update. -/
def writeP (f : Faults) (p : PointName) (upd : SawMillState → SawMillState)
    (s : SawMillState) : Except SawMillState SawMillState :=
  if f.failWrite p then Except.error s else Except.ok (upd s)

/-- The body of the `try` block of `update_simulation` (lines 121–193), with
each sink operation performed in source order and able to raise.  The
`Except.error` payload is the sink state at the point the exception was
raised: the writes already landed stay landed. -/
def tickBodyE (s : SawMillState) (o : Oracle) (f : Faults) :
    Except SawMillState SawMillState := do
  let s ← readP f .is_active s
  let is_active := s.is_active
  let s ← readP f .is_working s
  let is_working := s.is_working
  let s ← if o.second % 10 = 0 then do
      let s ← writeP f .is_active (fun t => { t with is_active := !is_active }) s
      let s ← writeP f .is_working (fun t => { t with is_working := !is_working }) s
      writeP f .is_stopped (fun t => { t with is_stopped := !(!is_active) }) s
    else pure s
  if is_active then do
    let s ← readP f .cutting_speed s
    let s ← writeP f .cutting_speed (fun t => { t with cutting_speed := newSpeed o }) s
    let s ← writeP f .motor_speed (fun t => { t with motor_speed := newMotorSpeed o }) s
    let s ← writeP f .speed (fun t => { t with speed := newMotorSpeed o }) s
    let s ← writeP f .power_consumption
      (fun t => { t with power_consumption := newPower o }) s
    let s ← readP f .temperature s
    let tempV := newTemp s o
    let s ← writeP f .temperature (fun t => { t with temperature := tempV }) s
    let s ← readP f .vibration s
    let vibV := newVib s o
    let s ← writeP f .vibration (fun t => { t with vibration := vibV }) s
    let s ← readP f .pressure s
    let presV := newPressure s o
    let s ← writeP f .pressure (fun t => { t with pressure := presV }) s
    if is_working then do
      let s ← if o.pieceEvent then do
          let s ← readP f .pieces_count s
          writeP f .pieces_count (fun t => { t with pieces_count := t.pieces_count + 1 }) s
        else pure s
      if newPower o > 85 then
        writeP f .has_alarm (fun t => { t with has_alarm := true }) s
      else if tempV > 55 then
        writeP f .has_alarm (fun t => { t with has_alarm := true }) s
      else if vibV > 8 then
        writeP f .has_alarm (fun t => { t with has_alarm := true }) s
      else if o.errorEvent then
        writeP f .has_error (fun t => { t with has_error := true }) s
      else do
        let s ← writeP f .has_alarm (fun t => { t with has_alarm := false }) s
        writeP f .has_error (fun t => { t with has_error := false }) s
    else pure s
  else pure s

/-- The whole of `update_simulation` including its `try`/`except` wrapper
(lines 120–196): an exception from any sink operation is caught and logged;
the tick is abandoned with whatever writes already landed. -/
def tickCaught (s : SawMillState) (o : Oracle) (f : Faults) : SawMillState :=
  match tickBodyE s o f with
  | Except.ok t => t
  | Except.error t => t

/-- The scheduler loop of `SawMillServer.start` over the fault-instrumented
semantics: every tick runs `tickCaught`, whatever the previous ticks'
failures were. -/
def runTicksF (s : SawMillState) (str : ℕ → Oracle × Faults) : ℕ → SawMillState
  | 0 => s
  | n + 1 => tickCaught (runTicksF s str n) (str n).1 (str n).2

def w5Oracle : Oracle :=
  { second := 0, dSpeed := 1, dMotor := 10, dPower := 0, dTemp := 0, dVib := 0,
    dPressure := 0, pieceEvent := true, errorEvent := false }

def w6Oracle : Oracle :=
  { second := 3, dSpeed := 2, dMotor := -50, dPower := 1, dTemp := 1, dVib := 1,
    dPressure := 1, pieceEvent := true, errorEvent := true }

def c1State : SawMillState := { initialState with is_active := true, cutting_speed := 15 }

def c1Oracle : Oracle :=
  { second := 1, dSpeed := 0, dMotor := 0, dPower := 0, dTemp := 0, dVib := 0,
    dPressure := 0, pieceEvent := false, errorEvent := false }

def c2State : SawMillState := { initialState with is_active := true }

def c2Oracle : Oracle :=
  { second := 2, dSpeed := 2, dMotor := 90, dPower := 1, dTemp := (3 : ℚ)/10,
    dVib := (3 : ℚ)/10, dPressure := 2, pieceEvent := false, errorEvent := false }

def c3State : SawMillState :=
  { initialState with
      is_active := true
      is_working := true
      temperature := 60
      vibration := 9 }

def c3Oracle : Oracle :=
  { second := 7, dSpeed := 5, dMotor := 0, dPower := 5, dTemp := 0, dVib := 0,
    dPressure := 0, pieceEvent := false, errorEvent := false }

def c4State : SawMillState := { initialState with is_active := true }

def c4Oracle : Oracle :=
  { second := 4, dSpeed := 2, dMotor := 0, dPower := 0, dTemp := 0, dVib := 0,
    dPressure := 0, pieceEvent := false, errorEvent := false }

def c8Stream : ℕ → Oracle := fun _ =>
  { second := 5, dSpeed := 0, dMotor := 0, dPower := 0, dTemp := 0, dVib := 0,
    dPressure := 0, pieceEvent := true, errorEvent := false }

def c10Oracle : Oracle :=
  { second := 30, dSpeed := 1, dMotor := 1, dPower := 1, dTemp := 1, dVib := 1,
    dPressure := 1, pieceEvent := true, errorEvent := true }

def c10ActiveState : SawMillState := { initialState with is_active := true }

def c9State : SawMillState :=
  { initialState with
      is_active := true
      is_working := true
      cutting_speed := 15 }

def c9Oracle : Oracle :=
  { second := 8, dSpeed := 0, dMotor := 7, dPower := 0, dTemp := 0, dVib := 0,
    dPressure := 0, pieceEvent := true, errorEvent := false }

def c9Faults : Faults :=
  { failRead := fun _ => false
    failWrite := fun p => match p with | .power_consumption => true | _ => false }

/-- The sink state reached when the `power_consumption` write raises
mid-tick: cutting_speed, motor_speed and speed were already written, nothing
after the failing write was. -/
def c9Landed : SawMillState :=
  { c9State with
      cutting_speed := 20
      motor_speed := 1807
      speed := 1807 }

def c9Stream : ℕ → Oracle × Faults := fun _ => (c9Oracle, c9Faults)

theorem clamp_le (lo hi x : ℚ) (h : lo ≤ hi) : lo ≤ clamp lo hi x ∧ clamp lo hi x ≤ hi := by
  unfold clamp
  constructor
  · exact le_max_left lo _
  · exact max_le h (min_le_left hi x)

@[simp] theorem toggleStep_is_active (s : SawMillState) (n : ℕ) :
    (toggleStep s n).is_active = if n % 10 = 0 then !s.is_active else s.is_active := by
  unfold toggleStep; split <;> rfl

@[simp] theorem toggleStep_is_working (s : SawMillState) (n : ℕ) :
    (toggleStep s n).is_working = if n % 10 = 0 then !s.is_working else s.is_working := by
  unfold toggleStep; split <;> rfl

@[simp] theorem toggleStep_is_stopped (s : SawMillState) (n : ℕ) :
    (toggleStep s n).is_stopped = if n % 10 = 0 then s.is_active else s.is_stopped := by
  unfold toggleStep; split <;> simp

@[simp] theorem toggleStep_cutting_speed (s : SawMillState) (n : ℕ) :
    (toggleStep s n).cutting_speed = s.cutting_speed := by
  unfold toggleStep; split <;> rfl

@[simp] theorem toggleStep_motor_speed (s : SawMillState) (n : ℕ) :
    (toggleStep s n).motor_speed = s.motor_speed := by
  unfold toggleStep; split <;> rfl

@[simp] theorem toggleStep_speed (s : SawMillState) (n : ℕ) :
    (toggleStep s n).speed = s.speed := by
  unfold toggleStep; split <;> rfl

@[simp] theorem toggleStep_power (s : SawMillState) (n : ℕ) :
    (toggleStep s n).power_consumption = s.power_consumption := by
  unfold toggleStep; split <;> rfl

@[simp] theorem toggleStep_temperature (s : SawMillState) (n : ℕ) :
    (toggleStep s n).temperature = s.temperature := by
  unfold toggleStep; split <;> rfl

@[simp] theorem toggleStep_vibration (s : SawMillState) (n : ℕ) :
    (toggleStep s n).vibration = s.vibration := by
  unfold toggleStep; split <;> rfl

@[simp] theorem toggleStep_pressure (s : SawMillState) (n : ℕ) :
    (toggleStep s n).pressure = s.pressure := by
  unfold toggleStep; split <;> rfl

@[simp] theorem toggleStep_pieces (s : SawMillState) (n : ℕ) :
    (toggleStep s n).pieces_count = s.pieces_count := by
  unfold toggleStep; split <;> rfl

@[simp] theorem toggleStep_has_alarm (s : SawMillState) (n : ℕ) :
    (toggleStep s n).has_alarm = s.has_alarm := by
  unfold toggleStep; split <;> rfl

@[simp] theorem toggleStep_has_error (s : SawMillState) (n : ℕ) :
    (toggleStep s n).has_error = s.has_error := by
  unfold toggleStep; split <;> rfl

@[simp] theorem newTemp_toggleStep (s : SawMillState) (n : ℕ) (o : Oracle) :
    newTemp (toggleStep s n) o = newTemp s o := by
  unfold newTemp; rw [toggleStep_temperature]

@[simp] theorem newVib_toggleStep (s : SawMillState) (n : ℕ) (o : Oracle) :
    newVib (toggleStep s n) o = newVib s o := by
  unfold newVib; rw [toggleStep_vibration]

@[simp] theorem newPressure_toggleStep (s : SawMillState) (n : ℕ) (o : Oracle) :
    newPressure (toggleStep s n) o = newPressure s o := by
  unfold newPressure; rw [toggleStep_pressure]

@[simp] theorem pieceStep_is_active (s : SawMillState) (ev : Bool) :
    (pieceStep s ev).is_active = s.is_active := by
  unfold pieceStep; split <;> rfl

@[simp] theorem pieceStep_is_working (s : SawMillState) (ev : Bool) :
    (pieceStep s ev).is_working = s.is_working := by
  unfold pieceStep; split <;> rfl

@[simp] theorem pieceStep_is_stopped (s : SawMillState) (ev : Bool) :
    (pieceStep s ev).is_stopped = s.is_stopped := by
  unfold pieceStep; split <;> rfl

@[simp] theorem pieceStep_cutting_speed (s : SawMillState) (ev : Bool) :
    (pieceStep s ev).cutting_speed = s.cutting_speed := by
  unfold pieceStep; split <;> rfl

@[simp] theorem pieceStep_motor_speed (s : SawMillState) (ev : Bool) :
    (pieceStep s ev).motor_speed = s.motor_speed := by
  unfold pieceStep; split <;> rfl

@[simp] theorem pieceStep_speed (s : SawMillState) (ev : Bool) :
    (pieceStep s ev).speed = s.speed := by
  unfold pieceStep; split <;> rfl

@[simp] theorem pieceStep_power (s : SawMillState) (ev : Bool) :
    (pieceStep s ev).power_consumption = s.power_consumption := by
  unfold pieceStep; split <;> rfl

@[simp] theorem pieceStep_temperature (s : SawMillState) (ev : Bool) :
    (pieceStep s ev).temperature = s.temperature := by
  unfold pieceStep; split <;> rfl

@[simp] theorem pieceStep_vibration (s : SawMillState) (ev : Bool) :
    (pieceStep s ev).vibration = s.vibration := by
  unfold pieceStep; split <;> rfl

@[simp] theorem pieceStep_pressure (s : SawMillState) (ev : Bool) :
    (pieceStep s ev).pressure = s.pressure := by
  unfold pieceStep; split <;> rfl

@[simp] theorem pieceStep_has_alarm (s : SawMillState) (ev : Bool) :
    (pieceStep s ev).has_alarm = s.has_alarm := by
  unfold pieceStep; split <;> rfl

@[simp] theorem pieceStep_has_error (s : SawMillState) (ev : Bool) :
    (pieceStep s ev).has_error = s.has_error := by
  unfold pieceStep; split <;> rfl

@[simp] theorem pieceStep_pieces (s : SawMillState) (ev : Bool) :
    (pieceStep s ev).pieces_count = if ev then s.pieces_count + 1 else s.pieces_count := by
  unfold pieceStep; split <;> rfl

@[simp] theorem alarmStep_is_active (s : SawMillState) (ev : Bool) (p t v : ℚ) :
    (alarmStep s ev p t v).is_active = s.is_active := by
  unfold alarmStep; split_ifs <;> rfl

@[simp] theorem alarmStep_is_working (s : SawMillState) (ev : Bool) (p t v : ℚ) :
    (alarmStep s ev p t v).is_working = s.is_working := by
  unfold alarmStep; split_ifs <;> rfl

@[simp] theorem alarmStep_is_stopped (s : SawMillState) (ev : Bool) (p t v : ℚ) :
    (alarmStep s ev p t v).is_stopped = s.is_stopped := by
  unfold alarmStep; split_ifs <;> rfl

@[simp] theorem alarmStep_cutting_speed (s : SawMillState) (ev : Bool) (p t v : ℚ) :
    (alarmStep s ev p t v).cutting_speed = s.cutting_speed := by
  unfold alarmStep; split_ifs <;> rfl

@[simp] theorem alarmStep_motor_speed (s : SawMillState) (ev : Bool) (p t v : ℚ) :
    (alarmStep s ev p t v).motor_speed = s.motor_speed := by
  unfold alarmStep; split_ifs <;> rfl

@[simp] theorem alarmStep_speed (s : SawMillState) (ev : Bool) (p t v : ℚ) :
    (alarmStep s ev p t v).speed = s.speed := by
  unfold alarmStep; split_ifs <;> rfl

@[simp] theorem alarmStep_power (s : SawMillState) (ev : Bool) (p t v : ℚ) :
    (alarmStep s ev p t v).power_consumption = s.power_consumption := by
  unfold alarmStep; split_ifs <;> rfl

@[simp] theorem alarmStep_temperature (s : SawMillState) (ev : Bool) (p t v : ℚ) :
    (alarmStep s ev p t v).temperature = s.temperature := by
  unfold alarmStep; split_ifs <;> rfl

@[simp] theorem alarmStep_vibration (s : SawMillState) (ev : Bool) (p t v : ℚ) :
    (alarmStep s ev p t v).vibration = s.vibration := by
  unfold alarmStep; split_ifs <;> rfl

@[simp] theorem alarmStep_pressure (s : SawMillState) (ev : Bool) (p t v : ℚ) :
    (alarmStep s ev p t v).pressure = s.pressure := by
  unfold alarmStep; split_ifs <;> rfl

@[simp] theorem alarmStep_pieces (s : SawMillState) (ev : Bool) (p t v : ℚ) :
    (alarmStep s ev p t v).pieces_count = s.pieces_count := by
  unfold alarmStep; split_ifs <;> rfl

@[simp] theorem sensorStep_is_active (s : SawMillState) (o : Oracle) :
    (sensorStep s o).is_active = s.is_active := rfl

@[simp] theorem sensorStep_is_working (s : SawMillState) (o : Oracle) :
    (sensorStep s o).is_working = s.is_working := rfl

@[simp] theorem sensorStep_is_stopped (s : SawMillState) (o : Oracle) :
    (sensorStep s o).is_stopped = s.is_stopped := rfl

@[simp] theorem sensorStep_cutting_speed (s : SawMillState) (o : Oracle) :
    (sensorStep s o).cutting_speed = newSpeed o := rfl

@[simp] theorem sensorStep_motor_speed (s : SawMillState) (o : Oracle) :
    (sensorStep s o).motor_speed = newMotorSpeed o := rfl

@[simp] theorem sensorStep_speed (s : SawMillState) (o : Oracle) :
    (sensorStep s o).speed = newMotorSpeed o := rfl

@[simp] theorem sensorStep_power (s : SawMillState) (o : Oracle) :
    (sensorStep s o).power_consumption = newPower o := rfl

@[simp] theorem sensorStep_temperature (s : SawMillState) (o : Oracle) :
    (sensorStep s o).temperature = newTemp s o := rfl

@[simp] theorem sensorStep_vibration (s : SawMillState) (o : Oracle) :
    (sensorStep s o).vibration = newVib s o := rfl

@[simp] theorem sensorStep_pressure (s : SawMillState) (o : Oracle) :
    (sensorStep s o).pressure = newPressure s o := rfl

@[simp] theorem sensorStep_pieces (s : SawMillState) (o : Oracle) :
    (sensorStep s o).pieces_count = s.pieces_count := rfl

@[simp] theorem sensorStep_has_alarm (s : SawMillState) (o : Oracle) :
    (sensorStep s o).has_alarm = s.has_alarm := rfl

@[simp] theorem sensorStep_has_error (s : SawMillState) (o : Oracle) :
    (sensorStep s o).has_error = s.has_error := rfl

theorem update_simulation_of_inactive (s : SawMillState) (o : Oracle)
    (h : s.is_active = false) :
    update_simulation s o = toggleStep s o.second := by
  unfold update_simulation
  simp [h]

theorem update_simulation_of_active_not_working (s : SawMillState) (o : Oracle)
    (ha : s.is_active = true) (hw : s.is_working = false) :
    update_simulation s o = sensorStep (toggleStep s o.second) o := by
  unfold update_simulation
  simp [ha, hw]

theorem update_simulation_of_active_working (s : SawMillState) (o : Oracle)
    (ha : s.is_active = true) (hw : s.is_working = true) :
    update_simulation s o =
      alarmStep (pieceStep (sensorStep (toggleStep s o.second) o) o.pieceEvent)
        o.errorEvent (newPower o) (newTemp s o) (newVib s o) := by
  unfold update_simulation
  simp [ha, hw]

theorem update_fields_of_active (s : SawMillState) (o : Oracle)
    (h : s.is_active = true) :
    (update_simulation s o).cutting_speed = newSpeed o ∧
    (update_simulation s o).motor_speed = newMotorSpeed o ∧
    (update_simulation s o).speed = newMotorSpeed o ∧
    (update_simulation s o).power_consumption = newPower o ∧
    (update_simulation s o).temperature = newTemp s o ∧
    (update_simulation s o).vibration = newVib s o ∧
    (update_simulation s o).pressure = newPressure s o := by
  by_cases hw : s.is_working = true
  · rw [update_simulation_of_active_working s o h hw]
    simp
  · rw [update_simulation_of_active_not_working s o h (Bool.not_eq_true _ ▸ hw)]
    simp

theorem update_flags (s : SawMillState) (o : Oracle) :
    (update_simulation s o).is_active = (toggleStep s o.second).is_active ∧
    (update_simulation s o).is_working = (toggleStep s o.second).is_working ∧
    (update_simulation s o).is_stopped = (toggleStep s o.second).is_stopped := by
  by_cases ha : s.is_active = true
  · by_cases hw : s.is_working = true
    · rw [update_simulation_of_active_working s o ha hw]
      simp
    · rw [update_simulation_of_active_not_working s o ha (Bool.not_eq_true _ ▸ hw)]
      simp
  · rw [update_simulation_of_inactive s o (Bool.not_eq_true _ ▸ ha)]
    exact ⟨rfl, rfl, rfl⟩

theorem stopped_invariant_step (s : SawMillState) (o : Oracle)
    (h : s.is_stopped = !s.is_active) :
    (update_simulation s o).is_stopped = !(update_simulation s o).is_active := by
  obtain ⟨h1, -, h3⟩ := update_flags s o
  rw [h1, h3]
  by_cases h10 : o.second % 10 = 0 <;> simp [h10, h]

theorem stopped_invariant_run (str : ℕ → Oracle) (n : ℕ) :
    (runTicks initialState str n).is_stopped = !(runTicks initialState str n).is_active := by
  induction n with
  | zero => rfl
  | succ k ih => exact stopped_invariant_step _ (str k) ih

/-- Claim C7: a tick negates `is_active` and `is_working` and sets
`is_stopped` to the negation of the new `is_active` exactly when the tick's
wall-clock second within the minute is divisible by 10; at any other second
the three state flags are left unchanged. -/
theorem toggle_cadence (s : SawMillState) (o : Oracle) :
    ((update_simulation s o).is_active,
      (update_simulation s o).is_working,
      (update_simulation s o).is_stopped) =
      if o.second % 10 = 0 then (!s.is_active, !s.is_working, !(!s.is_active))
      else (s.is_active, s.is_working, s.is_stopped) := by
  obtain ⟨h1, h2, h3⟩ := update_flags s o
  rw [h1, h2, h3]
  by_cases h10 : o.second % 10 = 0 <;> simp [h10]

/-- Claim C5: after any tick starting from a state satisfying
`stopped = !active`, the updated state again satisfies `stopped = !active`
(a toggling tick re-establishes it unconditionally), and the invariant holds
after every tick of every run from the initial state. -/
theorem stopped_complement (s : SawMillState) (o : Oracle)
    (h : s.is_stopped = !s.is_active) :
    (update_simulation s o).is_stopped = !(update_simulation s o).is_active ∧
    ∀ (str : ℕ → Oracle) (n : ℕ),
      (runTicks initialState str n).is_stopped
        = !(runTicks initialState str n).is_active :=
  ⟨stopped_invariant_step s o h, fun str n => stopped_invariant_run str n⟩

theorem stopped_complement_witness :
    initialState.is_stopped = !initialState.is_active ∧
    (update_simulation initialState w5Oracle).is_stopped
      = !(update_simulation initialState w5Oracle).is_active :=
  ⟨rfl, (stopped_complement initialState w5Oracle rfl).1⟩

/-- Claim C6: on a tick that starts with the machine inactive, no sensor
point, no counter and no alarm flag changes; only the state flags can move
(via the cadence toggle). -/
theorem inactive_quiescence (s : SawMillState) (o : Oracle)
    (h : s.is_active = false) :
    (update_simulation s o).cutting_speed = s.cutting_speed ∧
    (update_simulation s o).motor_speed = s.motor_speed ∧
    (update_simulation s o).speed = s.speed ∧
    (update_simulation s o).power_consumption = s.power_consumption ∧
    (update_simulation s o).temperature = s.temperature ∧
    (update_simulation s o).vibration = s.vibration ∧
    (update_simulation s o).pressure = s.pressure ∧
    (update_simulation s o).pieces_count = s.pieces_count ∧
    (update_simulation s o).has_alarm = s.has_alarm ∧
    (update_simulation s o).has_error = s.has_error := by
  rw [update_simulation_of_inactive s o h]
  simp

theorem inactive_quiescence_witness :
    initialState.is_active = false ∧
    (update_simulation initialState w6Oracle).cutting_speed = initialState.cutting_speed ∧
    (update_simulation initialState w6Oracle).temperature = initialState.temperature ∧
    (update_simulation initialState w6Oracle).pieces_count = initialState.pieces_count ∧
    (update_simulation initialState w6Oracle).has_alarm = initialState.has_alarm :=
  ⟨rfl, (inactive_quiescence initialState w6Oracle rfl).1,
    (inactive_quiescence initialState w6Oracle rfl).2.2.2.2.1,
    (inactive_quiescence initialState w6Oracle rfl).2.2.2.2.2.2.2.1,
    (inactive_quiescence initialState w6Oracle rfl).2.2.2.2.2.2.2.2.1⟩

/-- Claim C1, counterexample: with the machine active, previous
cutting_speed 15 and every random increment zero, the tick writes
cutting_speed 20 — the fixed target plus the increment — and not
`clamp 15 25 (15 + 0) = 15`, so cutting_speed does not evolve from its
previous value. -/
theorem cutting_speed_not_previous_based :
    (update_simulation c1State c1Oracle).cutting_speed = 20 ∧
    clamp 15 25 (c1State.cutting_speed + c1Oracle.dSpeed) = 15 ∧
    ¬ (update_simulation c1State c1Oracle).cutting_speed
        = clamp 15 25 (c1State.cutting_speed + c1Oracle.dSpeed) := by
  norm_num [update_simulation, toggleStep, sensorStep, pieceStep, alarmStep, newSpeed,
    newMotorSpeed, newPower, powerBeforeClamp, newTemp, newVib, newPressure,
    targetCuttingSpeed, targetMotorSpeed, targetPowerConsumption, clamp,
    c1State, c1Oracle, initialState, max_def, min_def]

/-- Claim C1 (amended): on an active tick, temperature, vibration and
pressure each evolve by a bounded random walk from their previous value and
are clamped to their documented ranges, while cutting_speed and motor_speed
are drawn afresh around the fixed targets: cutting_speed is
`clamp 15 25 (target + Δ)` and motor_speed is `target + Δ`, unclamped and
mirrored into `speed`. -/
theorem active_sensor_evolution (s : SawMillState) (o : Oracle)
    (h : s.is_active = true) :
    (update_simulation s o).cutting_speed = clamp 15 25 (targetCuttingSpeed + o.dSpeed) ∧
    (update_simulation s o).motor_speed = targetMotorSpeed + o.dMotor ∧
    (update_simulation s o).speed = targetMotorSpeed + o.dMotor ∧
    (update_simulation s o).temperature = clamp 40 60 (s.temperature + o.dTemp) ∧
    (update_simulation s o).vibration = clamp 2 10 (s.vibration + o.dVib) ∧
    (update_simulation s o).pressure = clamp 150 200 (s.pressure + o.dPressure) := by
  obtain ⟨h1, h2, h3, _, h5, h6, h7⟩ := update_fields_of_active s o h
  exact ⟨h1, h2, h3, h5, h6, h7⟩

theorem active_sensor_evolution_witness :
    c1State.is_active = true ∧
    ((update_simulation c1State c1Oracle).cutting_speed
        = clamp 15 25 (targetCuttingSpeed + c1Oracle.dSpeed) ∧
      (update_simulation c1State c1Oracle).motor_speed
        = targetMotorSpeed + c1Oracle.dMotor ∧
      (update_simulation c1State c1Oracle).speed
        = targetMotorSpeed + c1Oracle.dMotor ∧
      (update_simulation c1State c1Oracle).temperature
        = clamp 40 60 (c1State.temperature + c1Oracle.dTemp) ∧
      (update_simulation c1State c1Oracle).vibration
        = clamp 2 10 (c1State.vibration + c1Oracle.dVib) ∧
      (update_simulation c1State c1Oracle).pressure
        = clamp 150 200 (c1State.pressure + c1Oracle.dPressure)) :=
  ⟨rfl, active_sensor_evolution c1State c1Oracle rfl⟩

/-- Claim C2: on an active tick every sensor written lands inside its
documented range — cutting_speed in [15, 25], power_consumption in [60, 90],
temperature in [40, 60], vibration in [2, 10], pressure in [150, 200] — and,
with the motor draw inside its uniform(-90, 90) support, motor_speed and its
mirror speed land in [target − 90, target + 90]. -/
theorem clamp_invariant (s : SawMillState) (o : Oracle) (h : s.is_active = true)
    (hm1 : -90 ≤ o.dMotor) (hm2 : o.dMotor ≤ 90) :
    (15 ≤ (update_simulation s o).cutting_speed ∧
      (update_simulation s o).cutting_speed ≤ 25) ∧
    (60 ≤ (update_simulation s o).power_consumption ∧
      (update_simulation s o).power_consumption ≤ 90) ∧
    (40 ≤ (update_simulation s o).temperature ∧
      (update_simulation s o).temperature ≤ 60) ∧
    (2 ≤ (update_simulation s o).vibration ∧
      (update_simulation s o).vibration ≤ 10) ∧
    (150 ≤ (update_simulation s o).pressure ∧
      (update_simulation s o).pressure ≤ 200) ∧
    (targetMotorSpeed - 90 ≤ (update_simulation s o).motor_speed ∧
      (update_simulation s o).motor_speed ≤ targetMotorSpeed + 90) ∧
    (targetMotorSpeed - 90 ≤ (update_simulation s o).speed ∧
      (update_simulation s o).speed ≤ targetMotorSpeed + 90) := by
  obtain ⟨h1, h2, h3, h4, h5, h6, h7⟩ := update_fields_of_active s o h
  rw [h1, h2, h3, h4, h5, h6, h7]
  refine ⟨?_, ?_, ?_, ?_, ?_, ?_, ?_⟩
  · exact clamp_le 15 25 _ (by norm_num)
  · exact clamp_le 60 90 _ (by norm_num)
  · exact clamp_le 40 60 _ (by norm_num)
  · exact clamp_le 2 10 _ (by norm_num)
  · exact clamp_le 150 200 _ (by norm_num)
  · unfold newMotorSpeed
    exact ⟨by linarith, by linarith⟩
  · unfold newMotorSpeed
    exact ⟨by linarith, by linarith⟩

theorem clamp_invariant_witness :
    c2State.is_active = true ∧ -90 ≤ c2Oracle.dMotor ∧ c2Oracle.dMotor ≤ 90 ∧
    ((15 ≤ (update_simulation c2State c2Oracle).cutting_speed ∧
        (update_simulation c2State c2Oracle).cutting_speed ≤ 25) ∧
      (60 ≤ (update_simulation c2State c2Oracle).power_consumption ∧
        (update_simulation c2State c2Oracle).power_consumption ≤ 90) ∧
      (40 ≤ (update_simulation c2State c2Oracle).temperature ∧
        (update_simulation c2State c2Oracle).temperature ≤ 60) ∧
      (2 ≤ (update_simulation c2State c2Oracle).vibration ∧
        (update_simulation c2State c2Oracle).vibration ≤ 10) ∧
      (150 ≤ (update_simulation c2State c2Oracle).pressure ∧
        (update_simulation c2State c2Oracle).pressure ≤ 200) ∧
      (targetMotorSpeed - 90 ≤ (update_simulation c2State c2Oracle).motor_speed ∧
        (update_simulation c2State c2Oracle).motor_speed ≤ targetMotorSpeed + 90) ∧
      (targetMotorSpeed - 90 ≤ (update_simulation c2State c2Oracle).speed ∧
        (update_simulation c2State c2Oracle).speed ≤ targetMotorSpeed + 90)) :=
  ⟨rfl, by norm_num [c2Oracle], by norm_num [c2Oracle],
    clamp_invariant c2State c2Oracle rfl (by norm_num [c2Oracle]) (by norm_num [c2Oracle])⟩

/-- Claim C4: on an active tick the raw derived power is
`base_power + (new cutting_speed − target_speed) × 2 + r` (the literal 20 in
the code is exactly the cutting-speed target), the written power is that raw
value clamped to [60, 90], and with cutting_speed 22 and the random term 0
the raw value is 79. -/
theorem derived_power (s : SawMillState) (o : Oracle) (h : s.is_active = true) :
    powerBeforeClamp (newSpeed o) o.dPower
      = targetPowerConsumption + (newSpeed o - targetCuttingSpeed) * 2 + o.dPower ∧
    (update_simulation s o).power_consumption
      = clamp 60 90 (powerBeforeClamp (newSpeed o) o.dPower) ∧
    powerBeforeClamp 22 0 = 79 := by
  refine ⟨rfl, (update_fields_of_active s o h).2.2.2.1, ?_⟩
  norm_num [powerBeforeClamp, targetPowerConsumption]

theorem alarmStep_of_power (s : SawMillState) (ev : Bool) (p t v : ℚ)
    (h : p > 85) :
    (alarmStep s ev p t v).has_alarm = true ∧
    (alarmStep s ev p t v).has_error = s.has_error := by
  unfold alarmStep
  rw [if_pos h]
  exact ⟨rfl, rfl⟩

theorem alarmStep_of_temp (s : SawMillState) (ev : Bool) (p t v : ℚ)
    (h1 : ¬ p > 85) (h2 : t > 55) :
    (alarmStep s ev p t v).has_alarm = true ∧
    (alarmStep s ev p t v).has_error = s.has_error := by
  unfold alarmStep
  rw [if_neg h1, if_pos h2]
  exact ⟨rfl, rfl⟩

theorem alarmStep_of_vib (s : SawMillState) (ev : Bool) (p t v : ℚ)
    (h1 : ¬ p > 85) (h2 : ¬ t > 55) (h3 : v > 8) :
    (alarmStep s ev p t v).has_alarm = true ∧
    (alarmStep s ev p t v).has_error = s.has_error := by
  unfold alarmStep
  rw [if_neg h1, if_neg h2, if_pos h3]
  exact ⟨rfl, rfl⟩

theorem alarmStep_of_error (s : SawMillState) (ev : Bool) (p t v : ℚ)
    (h1 : ¬ p > 85) (h2 : ¬ t > 55) (h3 : ¬ v > 8) (h4 : ev = true) :
    (alarmStep s ev p t v).has_error = true ∧
    (alarmStep s ev p t v).has_alarm = s.has_alarm := by
  unfold alarmStep
  rw [if_neg h1, if_neg h2, if_neg h3, if_pos h4]
  exact ⟨rfl, rfl⟩

theorem alarmStep_clear (s : SawMillState) (ev : Bool) (p t v : ℚ)
    (h1 : ¬ p > 85) (h2 : ¬ t > 55) (h3 : ¬ v > 8) (h4 : ev = false) :
    (alarmStep s ev p t v).has_alarm = false ∧
    (alarmStep s ev p t v).has_error = false := by
  unfold alarmStep
  rw [if_neg h1, if_neg h2, if_neg h3, if_neg (by simp [h4])]
  exact ⟨rfl, rfl⟩

/-- Claim C3: with the machine active and working, the alarm cascade is
evaluated in strict priority order on the tick's freshly computed power,
temperature and vibration, first match winning: high power, else high
temperature, else high vibration set `has_alarm`; else the random-error
draw sets `has_error`; else both flags are cleared. -/
theorem alarm_priority (s : SawMillState) (o : Oracle)
    (ha : s.is_active = true) (hw : s.is_working = true) :
    (newPower o > 85 →
      (update_simulation s o).has_alarm = true ∧
      (update_simulation s o).has_error = s.has_error) ∧
    (¬ newPower o > 85 → newTemp s o > 55 →
      (update_simulation s o).has_alarm = true ∧
      (update_simulation s o).has_error = s.has_error) ∧
    (¬ newPower o > 85 → ¬ newTemp s o > 55 → newVib s o > 8 →
      (update_simulation s o).has_alarm = true ∧
      (update_simulation s o).has_error = s.has_error) ∧
    (¬ newPower o > 85 → ¬ newTemp s o > 55 → ¬ newVib s o > 8 →
      o.errorEvent = true →
      (update_simulation s o).has_error = true ∧
      (update_simulation s o).has_alarm = s.has_alarm) ∧
    (¬ newPower o > 85 → ¬ newTemp s o > 55 → ¬ newVib s o > 8 →
      o.errorEvent = false →
      (update_simulation s o).has_alarm = false ∧
      (update_simulation s o).has_error = false) := by
  rw [update_simulation_of_active_working s o ha hw]
  refine ⟨fun h1 => ?_, fun h1 h2 => ?_, fun h1 h2 h3 => ?_,
    fun h1 h2 h3 h4 => ?_, fun h1 h2 h3 h4 => ?_⟩
  · obtain ⟨e1, e2⟩ := alarmStep_of_power
      (pieceStep (sensorStep (toggleStep s o.second) o) o.pieceEvent) o.errorEvent
      (newPower o) (newTemp s o) (newVib s o) h1
    rw [e1, e2]
    simp
  · obtain ⟨e1, e2⟩ := alarmStep_of_temp
      (pieceStep (sensorStep (toggleStep s o.second) o) o.pieceEvent) o.errorEvent
      (newPower o) (newTemp s o) (newVib s o) h1 h2
    rw [e1, e2]
    simp
  · obtain ⟨e1, e2⟩ := alarmStep_of_vib
      (pieceStep (sensorStep (toggleStep s o.second) o) o.pieceEvent) o.errorEvent
      (newPower o) (newTemp s o) (newVib s o) h1 h2 h3
    rw [e1, e2]
    simp
  · obtain ⟨e1, e2⟩ := alarmStep_of_error
      (pieceStep (sensorStep (toggleStep s o.second) o) o.pieceEvent) o.errorEvent
      (newPower o) (newTemp s o) (newVib s o) h1 h2 h3 h4
    rw [e1, e2]
    simp
  · obtain ⟨e1, e2⟩ := alarmStep_clear
      (pieceStep (sensorStep (toggleStep s o.second) o) o.pieceEvent) o.errorEvent
      (newPower o) (newTemp s o) (newVib s o) h1 h2 h3 h4
    rw [e1, e2]
    exact ⟨rfl, rfl⟩

theorem alarm_priority_witness :
    c3State.is_active = true ∧ c3State.is_working = true ∧
    newPower c3Oracle = 90 ∧ newTemp c3State c3Oracle = 60 ∧
    newVib c3State c3Oracle = 9 ∧
    (update_simulation c3State c3Oracle).has_alarm = true ∧
    (update_simulation c3State c3Oracle).has_error = c3State.has_error :=
  ⟨rfl, rfl,
    by norm_num [newPower, powerBeforeClamp, newSpeed, targetCuttingSpeed,
      targetPowerConsumption, clamp, c3Oracle, max_def, min_def],
    by norm_num [newTemp, clamp, c3State, c3Oracle, initialState, max_def, min_def],
    by norm_num [newVib, clamp, c3State, c3Oracle, initialState, max_def, min_def],
    ((alarm_priority c3State c3Oracle rfl rfl).1 (by
      norm_num [newPower, powerBeforeClamp, newSpeed, targetCuttingSpeed,
        targetPowerConsumption, clamp, c3Oracle, max_def, min_def])).1,
    ((alarm_priority c3State c3Oracle rfl rfl).1 (by
      norm_num [newPower, powerBeforeClamp, newSpeed, targetCuttingSpeed,
        targetPowerConsumption, clamp, c3Oracle, max_def, min_def])).2⟩

theorem derived_power_witness :
    c4State.is_active = true ∧ newSpeed c4Oracle = 22 ∧
    (powerBeforeClamp (newSpeed c4Oracle) c4Oracle.dPower
        = targetPowerConsumption + (newSpeed c4Oracle - targetCuttingSpeed) * 2
            + c4Oracle.dPower ∧
      (update_simulation c4State c4Oracle).power_consumption
        = clamp 60 90 (powerBeforeClamp (newSpeed c4Oracle) c4Oracle.dPower) ∧
      powerBeforeClamp 22 0 = 79) :=
  ⟨rfl, by norm_num [newSpeed, targetCuttingSpeed, clamp, c4Oracle, max_def, min_def],
    derived_power c4State c4Oracle rfl⟩

theorem pieces_step_cases (s : SawMillState) (o : Oracle) :
    (update_simulation s o).pieces_count = s.pieces_count ∨
    (s.is_active = true ∧ s.is_working = true ∧ o.pieceEvent = true ∧
      (update_simulation s o).pieces_count = s.pieces_count + 1) := by
  by_cases ha : s.is_active = true
  · by_cases hw : s.is_working = true
    · rw [update_simulation_of_active_working s o ha hw]
      by_cases hp : o.pieceEvent = true
      · exact Or.inr ⟨ha, hw, hp, by simp [hp]⟩
      · exact Or.inl (by simp [hp])
    · rw [update_simulation_of_active_not_working s o ha (Bool.not_eq_true _ ▸ hw)]
      exact Or.inl (by simp)
  · rw [update_simulation_of_inactive s o (Bool.not_eq_true _ ▸ ha)]
    exact Or.inl (by simp)

theorem pieces_step_le (s : SawMillState) (o : Oracle) :
    s.pieces_count ≤ (update_simulation s o).pieces_count := by
  rcases pieces_step_cases s o with h | ⟨-, -, -, h⟩ <;> omega

theorem pieces_run_le (s : SawMillState) (str : ℕ → Oracle) (m n : ℕ) (h : m ≤ n) :
    (runTicks s str m).pieces_count ≤ (runTicks s str n).pieces_count := by
  induction n with
  | zero =>
    rw [Nat.le_zero] at h
    rw [h]
  | succ k ih =>
    rcases Nat.lt_or_ge m (k + 1) with hk | hk
    · exact le_trans (ih (Nat.lt_succ_iff.mp hk)) (pieces_step_le _ (str k))
    · rw [Nat.le_antisymm h hk]

/-- Claim C8: on every tick pieces_count either stays the same or — only
with the machine active and working and the 0.2-probability draw landing —
increases by exactly 1; along any run of the scheduler it never decreases. -/
theorem pieces_monotone (s : SawMillState) (str : ℕ → Oracle) (m n : ℕ)
    (h : m ≤ n) :
    (∀ (t : SawMillState) (o : Oracle),
      (update_simulation t o).pieces_count = t.pieces_count ∨
      (t.is_active = true ∧ t.is_working = true ∧ o.pieceEvent = true ∧
        (update_simulation t o).pieces_count = t.pieces_count + 1)) ∧
    (runTicks s str m).pieces_count ≤ (runTicks s str n).pieces_count :=
  ⟨fun t o => pieces_step_cases t o, pieces_run_le s str m n h⟩

theorem pieces_monotone_witness :
    (0 : ℕ) ≤ 3 ∧
    ((∀ (t : SawMillState) (o : Oracle),
        (update_simulation t o).pieces_count = t.pieces_count ∨
        (t.is_active = true ∧ t.is_working = true ∧ o.pieceEvent = true ∧
          (update_simulation t o).pieces_count = t.pieces_count + 1)) ∧
      (runTicks initialState c8Stream 0).pieces_count
        ≤ (runTicks initialState c8Stream 3).pieces_count) :=
  ⟨by omega, pieces_monotone initialState c8Stream 0 3 (by omega)⟩

/-- Claim C10: a tick's sensor/counter/alarm behaviour is decided by the
`is_active` value read before the cadence toggle: a toggling tick that
turns the machine on performs no sensor, counter or alarm update, while a
toggling tick that turns it off still performs the sensor updates. -/
theorem pre_toggle_snapshot (s : SawMillState) (o : Oracle)
    (h : o.second % 10 = 0) :
    (s.is_active = false →
      (update_simulation s o).is_active = true ∧
      (update_simulation s o).cutting_speed = s.cutting_speed ∧
      (update_simulation s o).motor_speed = s.motor_speed ∧
      (update_simulation s o).speed = s.speed ∧
      (update_simulation s o).power_consumption = s.power_consumption ∧
      (update_simulation s o).temperature = s.temperature ∧
      (update_simulation s o).vibration = s.vibration ∧
      (update_simulation s o).pressure = s.pressure ∧
      (update_simulation s o).pieces_count = s.pieces_count ∧
      (update_simulation s o).has_alarm = s.has_alarm ∧
      (update_simulation s o).has_error = s.has_error) ∧
    (s.is_active = true →
      (update_simulation s o).is_active = false ∧
      (update_simulation s o).cutting_speed = newSpeed o ∧
      (update_simulation s o).motor_speed = newMotorSpeed o ∧
      (update_simulation s o).speed = newMotorSpeed o ∧
      (update_simulation s o).power_consumption = newPower o ∧
      (update_simulation s o).temperature = newTemp s o ∧
      (update_simulation s o).vibration = newVib s o ∧
      (update_simulation s o).pressure = newPressure s o) := by
  constructor
  · intro ha
    obtain ⟨h1, -, -⟩ := update_flags s o
    refine ⟨?_, inactive_quiescence s o ha⟩
    rw [h1]
    simp [h, ha]
  · intro ha
    obtain ⟨h1, -, -⟩ := update_flags s o
    refine ⟨?_, update_fields_of_active s o ha⟩
    rw [h1]
    simp [h, ha]

theorem pre_toggle_snapshot_witness :
    c10Oracle.second % 10 = 0 ∧
    ((update_simulation initialState c10Oracle).is_active = true ∧
      (update_simulation initialState c10Oracle).cutting_speed
        = initialState.cutting_speed ∧
      (update_simulation initialState c10Oracle).pieces_count
        = initialState.pieces_count) ∧
    ((update_simulation c10ActiveState c10Oracle).is_active = false ∧
      (update_simulation c10ActiveState c10Oracle).cutting_speed
        = newSpeed c10Oracle) :=
  ⟨rfl,
    ⟨((pre_toggle_snapshot initialState c10Oracle rfl).1 rfl).1,
      ((pre_toggle_snapshot initialState c10Oracle rfl).1 rfl).2.1,
      ((pre_toggle_snapshot initialState c10Oracle rfl).1 rfl).2.2.2.2.2.2.2.2.1⟩,
    ⟨((pre_toggle_snapshot c10ActiveState c10Oracle rfl).2 rfl).1,
      ((pre_toggle_snapshot c10ActiveState c10Oracle rfl).2 rfl).2.1⟩⟩

/-- Claim C9: an exception raised by any sink read or write during a tick is
caught by the tick's handler — the tick returns the partially-updated sink
state instead of propagating — and the scheduler loop unconditionally
executes the next tick on top of whatever the previous tick left behind. -/
theorem tick_failure_contained (s t : SawMillState) (o : Oracle) (f : Faults)
    (h : tickBodyE s o f = Except.error t) :
    tickCaught s o f = t ∧
    ∀ (s0 : SawMillState) (str : ℕ → Oracle × Faults) (n : ℕ),
      runTicksF s0 str (n + 1)
        = tickCaught (runTicksF s0 str n) (str n).1 (str n).2 := by
  refine ⟨?_, fun s0 str n => rfl⟩
  unfold tickCaught
  rw [h]

theorem tick_failure_contained_witness :
    tickBodyE c9State c9Oracle c9Faults = Except.error c9Landed ∧
    tickCaught c9State c9Oracle c9Faults = c9Landed ∧
    runTicksF c9State c9Stream 1
      = tickCaught (runTicksF c9State c9Stream 0) (c9Stream 0).1 (c9Stream 0).2 := by
  have hb : tickBodyE c9State c9Oracle c9Faults = Except.error c9Landed := by
    norm_num [tickBodyE, readP, writeP, c9Faults, c9State, c9Oracle, c9Landed,
      initialState, newSpeed, newMotorSpeed, newPower, powerBeforeClamp, newTemp,
      newVib, newPressure, targetCuttingSpeed, targetMotorSpeed,
      targetPowerConsumption, clamp, max_def, min_def, Bind.bind, Except.bind,
      pure, Except.pure]
  exact ⟨hb, (tick_failure_contained c9State c9Landed c9Oracle c9Faults hb).1,
    (tick_failure_contained c9State c9Landed c9Oracle c9Faults hb).2 c9State c9Stream 0⟩
